import Mathlib

/-!
Verification development for the behavioural-biometrics authentication system.

The definitions below are shallow embeddings of the repository's source:
* `ChallengeManager` embeds `src/server/services/userManager.js` (the
  `ChallengeManager` class): challenge storage, verification state machine,
  solution matching (exact, numeric, and fuzzy).
* `Capture` embeds `src/client/src/lib/biometrics.ts` (`BiometricCapture`):
  the keystroke feature extractor.
* `ServerRisk` embeds `src/server/services/riskCalculator.js`
  (`RiskCalculator`), `UserManager.updateBiometricProfile`, and the decision
  branch of `login` in the auth controller.
* `ClientRisk` embeds the TensorFlow-based client `RiskCalculator`
  (its control flow; the neural network's prediction is an abstract
  function parameter, since only the not-ready fallback is specified).

JavaScript numbers are modelled as `ℚ` (client/challenge code, which is
division-free or rational) and `ℝ` (server risk engine, which takes a square
root in its z-score computation).  Division by zero follows Lean's `x / 0 = 0`
convention; every theorem below either avoids the zero-divisor points by
hypothesis or is insensitive to the value chosen there.  Timestamps
(`Date.now()`, `performance.now()`, ISO date strings) are modelled as
rational/real numbers in milliseconds.
-/

namespace ChallengeManager

/-- Embeds the `ChallengeData` interface of `userManager.js`
(`id` is the map key and is kept outside the record; `question` and `hints`
are never read by `verifyChallenge` and are omitted from the embedding). -/
structure ChallengeData where
  userId : String
  type : String
  answer : String
  createdAt : ℚ
  expiresAt : ℚ
  attempts : ℕ
  maxAttempts : ℕ
  completed : Bool
  deriving Repr, DecidableEq

/-- The three result shapes returned by `ChallengeManager.verifyChallenge`:
`\x7b valid: false, error \x7d`, `\x7b valid: false, error, attemptsRemaining \x7d`
and `\x7b valid: true, userId, challengeType, attempts \x7d`. -/
inductive VerifyResult where
  | invalid (error : String)
  | invalidRetry (error : String) (attemptsRemaining : ℕ)
  | valid (userId : String) (challengeType : String) (attempts : ℕ)
  deriving Repr, DecidableEq

/-- The `ChallengeManager.challenges` JS `Map`, embedded as an association
list (keys unique in any reachable state; the operations below implement
`Map.get` / `Map.set` / `Map.delete`). -/
def ChallengeMap := List (String × ChallengeData)

def mapGet (m : ChallengeMap) (id : String) : Option ChallengeData :=
  match m with
  | [] => none
  | (k, v) :: rest => if k = id then some v else mapGet rest id

def mapSet (m : ChallengeMap) (id : String) (v : ChallengeData) : ChallengeMap :=
  match m with
  | [] => [(id, v)]
  | (k, w) :: rest => if k = id then (id, v) :: rest else (k, w) :: mapSet rest id v

def mapDelete (m : ChallengeMap) (id : String) : ChallengeMap :=
  match m with
  | [] => []
  | (k, w) :: rest => if k = id then mapDelete rest id else (k, w) :: mapDelete rest id

/-- JS `String.prototype.toLowerCase` restricted to ASCII, as used on
challenge answers/solutions. -/
def jsToLower (s : String) : String := String.mk (s.toList.map Char.toLower)

/-- Strip leading and trailing whitespace from a character list
(JS `String.prototype.trim`). -/
def trimChars (l : List Char) : List Char :=
  ((l.dropWhile Char.isWhitespace).reverse.dropWhile Char.isWhitespace).reverse

/-- `solution.toString().toLowerCase().trim()` from `verifySolution`. -/
def normalizeInput (s : String) : String :=
  String.mk (trimChars (jsToLower s).toList)

/-- Character-level model of JS `parseFloat`: longest valid prefixed float
(optional sign, digits, optional fraction, optional exponent); `none` models
`NaN`.  Only the `math` branch of `verifySolution` uses it. -/
def parseDigits : List Char → (ℕ × ℕ × List Char)
  | [] => (0, 0, [])
  | c :: rest =>
    if c.isDigit then
      let (v, n, rem) := parseDigits rest
      (c.toNat - '0'.toNat) * 10 ^ n + v |> fun v2 => (v2, n + 1, rem)
    else (0, 0, c :: rest)

def parseExponent : List Char → Option ℤ
  | [] => none
  | c :: rest =>
    if c = 'e' ∨ c = 'E' then
      let (sign, rest2) :=
        match rest with
        | '+' :: r => ((1 : ℤ), r)
        | '-' :: r => ((-1 : ℤ), r)
        | r => ((1 : ℤ), r)
      let (v, n, _) := parseDigits rest2
      if n = 0 then none else some (sign * v)
    else none

def parseFloatQ (s : String) : Option ℚ :=
  let cs := trimChars s.toList
  let (signNeg, cs2) :=
    match cs with
    | '+' :: r => (false, r)
    | '-' :: r => (true, r)
    | r => (false, r)
  let (ip, ipLen, rest) := parseDigits cs2
  let (fp, fpLen, rest2) :=
    match rest with
    | '.' :: r => parseDigits r
    | r => (0, 0, r)
  if ipLen = 0 ∧ fpLen = 0 then none
  else
    let num0 : ℤ := ((ip * 10 ^ fpLen + fp : ℕ) : ℤ)
    let num : ℤ := if signNeg then -num0 else num0
    let den : ℕ := 10 ^ fpLen
    some
      (match parseExponent rest2 with
        | none => mkRat num den
        | some e =>
          if 0 ≤ e then mkRat (num * 10 ^ e.toNat) den
          else mkRat num (den * 10 ^ (-e).toNat))

/-- Levenshtein edit distance (the recurrence computed by the DP matrix in
`ChallengeManager.levenshteinDistance`). -/
def levenshtein : List Char → List Char → ℕ
  | [], b => b.length
  | a, [] => a.length
  | x :: xs, y :: ys =>
    let cost := if x = y then 0 else 1
    min (min (levenshtein xs (y :: ys) + 1) (levenshtein (x :: xs) ys + 1))
      (levenshtein xs ys + cost)
  termination_by a b => a.length + b.length
  decreasing_by all_goals simp_arith

def stopWords : List String :=
  ["the", "a", "an", "and", "or", "but", "in", "on", "at", "to", "for", "of",
    "with", "by"]

/-- Split a character list into maximal whitespace-free words. -/
def splitWords (l : List Char) (current : List Char) : List String :=
  match l with
  | [] => if current = [] then [] else [String.mk current.reverse]
  | c :: rest =>
    if c.isWhitespace then
      if current = [] then splitWords rest []
      else String.mk current.reverse :: splitWords rest []
    else splitWords rest (c :: current)

def joinWithSpace : List String → String
  | [] => ""
  | [w] => w
  | w :: rest => w ++ " " ++ joinWithSpace rest

/-- The `normalize` closure inside `fuzzyMatch`: drop characters outside
`[a-z0-9\s]`, delete stop words at word boundaries, collapse whitespace and
trim.  On the already lowercased input this equals: keep only alphanumeric
words and spaces, drop whole stop words, re-join with single spaces. -/
def fuzzyNormalize (s : String) : String :=
  let kept := s.toList.filter fun c =>
    (('a' ≤ c ∧ c ≤ 'z') ∨ ('0' ≤ c ∧ c ≤ '9') ∨ c.isWhitespace)
  let words := splitWords kept []
  let words2 := words.filter fun w => w ∉ stopWords
  joinWithSpace words2

/-- `ChallengeManager.fuzzyMatch`. -/
def fuzzyMatch (solution answer : String) : Bool :=
  let ns := fuzzyNormalize solution
  let na := fuzzyNormalize answer
  if ns = na then true
  else if decide (List.IsInfix na.toList ns.toList) ∨
      decide (List.IsInfix ns.toList na.toList) then true
  else
    let distance := levenshtein ns.toList na.toList
    let maxLength := max ns.length na.length
    let similarity : ℚ :=
      1 - (distance : ℚ) / (if maxLength = 0 then 1 else (maxLength : ℚ))
    decide (similarity ≥ 8 / 10)

/-- `ChallengeManager.verifySolution`. -/
def verifySolution (challenge : ChallengeData) (solution : String) : Bool :=
  let normalizedSolution := normalizeInput solution
  let normalizedAnswer := normalizeInput challenge.answer
  if challenge.type = "math" then
    match parseFloatQ normalizedSolution, parseFloatQ normalizedAnswer with
    | some x, some y => x = y
    | _, _ => false
  else if challenge.type = "pattern" ∨ challenge.type = "memory" ∨
      challenge.type = "captcha" then
    normalizedSolution = normalizedAnswer
  else if challenge.type = "security_questions" then
    fuzzyMatch normalizedSolution normalizedAnswer
  else
    normalizedSolution = normalizedAnswer

/-- `ChallengeManager.verifyChallenge`, as a state transformer on the
challenge map; `now` models `new Date()` at the time of the call.  Returns
the result together with the updated map. -/
def verifyChallenge (m : ChallengeMap) (challengeId : String) (solution : String)
    (now : ℚ) : VerifyResult × ChallengeMap :=
  match mapGet m challengeId with
  | none => (.invalid "Challenge not found or expired", m)
  | some challenge =>
    if now > challenge.expiresAt then
      (.invalid "Challenge expired", mapDelete m challengeId)
    else if challenge.completed then
      (.invalid "Challenge already completed", m)
    else if challenge.attempts ≥ challenge.maxAttempts then
      (.invalid "Maximum attempts exceeded", mapDelete m challengeId)
    else
      let c2 := { challenge with attempts := challenge.attempts + 1 }
      if verifySolution c2 solution then
        (.valid challenge.userId challenge.type c2.attempts,
          mapSet m challengeId { c2 with completed := true })
      else
        (.invalidRetry "Incorrect solution" (c2.maxAttempts - c2.attempts),
          mapSet m challengeId c2)

/-- Test fixture: a freshly created captcha challenge (5-minute expiry,
`maxAttempts = 3`), as built by `createChallenge`. -/
def exhaustChallenge : ChallengeData :=
  { userId := "user-1", type := "captcha", answer := "X7KQ2", createdAt := 0,
    expiresAt := 300000, attempts := 0, maxAttempts := 3, completed := false }

/-- Test fixture: a challenge store holding only `exhaustChallenge`. -/
def exhaustMap : ChallengeMap := [("cid", exhaustChallenge)]

end ChallengeManager

namespace Capture
/-- Embeds the `KeyMetrics` interface of `biometrics.ts`. -/
structure KeyMetrics where
  downTime : ℚ
  upTime : ℚ
  holdTimes : List ℚ
  flightTimes : List ℚ
  lastKeyUp : ℚ
  character : String
  deriving Repr, DecidableEq

/-- Embeds the `TypingSession` interface of `biometrics.ts`. -/
structure TypingSession where
  holdTimes : List ℚ
  flightTimes : List ℚ
  errorRate : ℚ
  typingSpeed : ℚ
  consistencyScore : ℚ
  sessionStart : ℚ
  totalKeystrokes : ℕ
  corrections : ℕ
  deriving Repr, DecidableEq

/-- The mutable state of a `BiometricCapture` instance: the per-key
`metrics` map plus `sessionData`. -/
structure CaptureState where
  metrics : List (String × KeyMetrics)
  sessionData : TypingSession
  deriving Repr, DecidableEq

def metricsGet (m : List (String × KeyMetrics)) (key : String) : Option KeyMetrics :=
  match m with
  | [] => none
  | (k, v) :: rest => if k = key then some v else metricsGet rest key

def metricsSet (m : List (String × KeyMetrics)) (key : String) (v : KeyMetrics) :
    List (String × KeyMetrics) :=
  match m with
  | [] => [(key, v)]
  | (k, w) :: rest =>
    if k = key then (key, v) :: rest else (k, w) :: metricsSet rest key v

/-- `initializeSession` of `biometrics.ts` (`t0` models the
`performance.now()` call). -/
def initSession (t0 : ℚ) : TypingSession :=
  { holdTimes := [], flightTimes := [], errorRate := 0, typingSpeed := 0,
    consistencyScore := 0, sessionStart := t0, totalKeystrokes := 0,
    corrections := 0 }

def initState (t0 : ℚ) : CaptureState :=
  { metrics := [], sessionData := initSession t0 }

/-- `BiometricCapture.isModifierKey`. -/
def isModifierKey (key : String) : Bool :=
  key ∈ ["Shift", "Control", "Alt", "Meta", "CapsLock", "Tab", "Escape",
      "Enter", "ArrowUp", "ArrowDown", "ArrowLeft", "ArrowRight", "Home",
      "End", "PageUp", "PageDown", "Insert", "Delete"] ||
    (match key.toList with
      | 'F' :: _ => true
      | _ => false)

/-- `BiometricCapture.calculateVariance` (client version: returns 0 only for
the empty array). -/
def calculateVariance (values : List ℚ) : ℚ :=
  if values.length = 0 then 0
  else
    let mean := values.sum / values.length
    (values.map fun val => (val - mean) ^ 2).sum / values.length

/-- `calculateTypingSpeed` (in WPM); `now` models the `performance.now()`
call inside the method. -/
def calculateTypingSpeed (sd : TypingSession) (now : ℚ) : ℚ :=
  let timeElapsed := (now - sd.sessionStart) / 1000 / 60
  let wordsTyped := (sd.totalKeystrokes : ℚ) / 5
  wordsTyped / timeElapsed

/-- `calculateErrorRate`. -/
def calculateErrorRate (sd : TypingSession) : ℚ :=
  if sd.totalKeystrokes = 0 then 0
  else ((sd.corrections : ℚ) / (sd.totalKeystrokes : ℚ)) * 100

/-- `calculateConsistencyScore`. -/
def calculateConsistencyScore (sd : TypingSession) : ℚ :=
  if sd.holdTimes.length < 2 then 0
  else
    let holdTimeVariance := calculateVariance sd.holdTimes
    let flightTimeVariance :=
      if sd.flightTimes.length > 1 then calculateVariance sd.flightTimes else 0
    let normalizedHoldVar := max 0 (100 - holdTimeVariance / 10)
    let normalizedFlightVar := max 0 (100 - flightTimeVariance / 10)
    (normalizedHoldVar + normalizedFlightVar) / 2

/-- `updateSession`: recompute the three derived statistics (the
`onMetricsUpdate` callback performs no state change). -/
def updateSession (st : CaptureState) (now : ℚ) : CaptureState :=
  { st with
    sessionData :=
      { st.sessionData with
        typingSpeed := calculateTypingSpeed st.sessionData now
        errorRate := calculateErrorRate st.sessionData
        consistencyScore := calculateConsistencyScore st.sessionData } }

/-- `BiometricCapture.captureKeyDown` (`timestamp` models
`performance.now()` at entry). -/
def captureKeyDown (st : CaptureState) (key : String) (timestamp : ℚ) :
    CaptureState :=
  if isModifierKey key then st
  else if key = "Backspace" then
    updateSession
      { st with
        sessionData :=
          { st.sessionData with corrections := st.sessionData.corrections + 1 } }
      timestamp
  else
    { st with
      metrics := metricsSet st.metrics key
        { downTime := timestamp, upTime := 0, holdTimes := [],
          flightTimes := [], lastKeyUp := 0, character := key }
      sessionData :=
        { st.sessionData with
          totalKeystrokes := st.sessionData.totalKeystrokes + 1 } }

/-- `BiometricCapture.captureKeyUp`. -/
def captureKeyUp (st : CaptureState) (key : String) (timestamp : ℚ) :
    CaptureState :=
  if isModifierKey key then st
  else
    match metricsGet st.metrics key with
    | none => st
    | some metric =>
      let holdTime := timestamp - metric.downTime
      let metric1 :=
        { metric with
          upTime := timestamp
          holdTimes := metric.holdTimes ++ [holdTime] }
      let sd1 :=
        { st.sessionData with
          holdTimes := st.sessionData.holdTimes ++ [holdTime] }
      let (metric2, sd2) :=
        if metric.lastKeyUp > 0 then
          let flightTime := metric.downTime - metric.lastKeyUp
          ({ metric1 with flightTimes := metric1.flightTimes ++ [flightTime] },
            { sd1 with flightTimes := sd1.flightTimes ++ [flightTime] })
        else (metric1, sd1)
      let metric3 := { metric2 with lastKeyUp := timestamp }
      updateSession
        { metrics := metricsSet st.metrics key metric3, sessionData := sd2 }
        timestamp

/-- A raw browser key event fed to the capture handlers. -/
inductive KeyEvent where
  | down (key : String) (t : ℚ)
  | up (key : String) (t : ℚ)
  deriving Repr, DecidableEq

def stepEvent (st : CaptureState) : KeyEvent → CaptureState
  | .down key t => captureKeyDown st key t
  | .up key t => captureKeyUp st key t

def runEvents (st : CaptureState) (events : List KeyEvent) : CaptureState :=
  events.foldl stepEvent st

end Capture

namespace ServerRisk

noncomputable section

/-- One entry of `BiometricProfile.samples` (`userManager.js`).
`holdVelocityVariance` is optional because `updateBiometricProfile` omits it
(JS `undefined`); the risk engine reads it as `s.holdVelocityVariance || 0`. -/
structure BiometricSample where
  avgHoldTime : ℝ
  avgFlightTime : ℝ
  holdTimeVariance : ℝ
  flightTimeVariance : ℝ
  errorRate : ℝ
  typingSpeed : ℝ
  holdVelocityVariance : Option ℝ
  timestamp : ℝ

/-- A user's biometric profile (`userManager.js`). -/
structure Profile where
  userId : String
  createdAt : ℝ
  lastUpdated : ℝ
  samples : List BiometricSample

/-- The validated `features` object of a login request
(`biometricSchema` in the auth controller). -/
structure BiometricFeatures where
  holdTimes : List ℝ
  flightTimes : List ℝ
  errorRate : ℝ
  typingSpeed : ℝ
  timestamp : ℝ

/-- `RiskCalculator.calculateAverage`. -/
def calculateAverage (array : List ℝ) : ℝ :=
  if 0 < array.length then array.sum / array.length else 0

/-- `RiskCalculator.calculateVariance` (server version: 0 for fewer than two
entries). -/
def calculateVariance (array : List ℝ) : ℝ :=
  if array.length < 2 then 0
  else
    let avg := calculateAverage array
    calculateAverage (array.map fun val => (val - avg) ^ 2)

/-- `RiskCalculator.calculateStandardDeviation`. -/
def calculateStandardDeviation (array : List ℝ) : ℝ :=
  Real.sqrt (calculateVariance array)

/-- `RiskCalculator.calculateZScore`. -/
def calculateZScore (value : ℝ) (historicalValues : List ℝ) : ℝ :=
  if historicalValues.length < 2 then 0
  else
    let mean := calculateAverage historicalValues
    let std := calculateStandardDeviation historicalValues
    if std > 0 then (value - mean) / std else 0

/-- `RiskCalculator.calculateTemporalRisk`. -/
def calculateTemporalRisk (current : BiometricFeatures) (profile : Profile) : ℝ :=
  let avgHoldTimes := calculateAverage (profile.samples.map fun s => s.avgHoldTime)
  let avgFlightTimes :=
    calculateAverage (profile.samples.map fun s => s.avgFlightTime)
  let currentHoldAvg := calculateAverage current.holdTimes
  let currentFlightAvg := calculateAverage current.flightTimes
  let holdDeviation := |currentHoldAvg - avgHoldTimes| / avgHoldTimes
  let flightDeviation := |currentFlightAvg - avgFlightTimes| / avgFlightTimes
  let holdRisk := min (holdDeviation * 2) 1
  let flightRisk := min (flightDeviation * 2) 1
  (holdRisk + flightRisk) / 2

/-- `RiskCalculator.calculateBehavioralRisk`. -/
def calculateBehavioralRisk (current : BiometricFeatures) (profile : Profile) : ℝ :=
  let avgErrorRate := calculateAverage (profile.samples.map fun s => s.errorRate)
  let avgTypingSpeed :=
    calculateAverage (profile.samples.map fun s => s.typingSpeed)
  let errorDeviation := |current.errorRate - avgErrorRate|
  let speedDeviation := |current.typingSpeed - avgTypingSpeed| / avgTypingSpeed
  let errorRisk := min (errorDeviation * 5) 1
  let speedRisk := min (speedDeviation * 3) 1
  (errorRisk + speedRisk) / 2

/-- `RiskCalculator.calculateConsistencyRisk` (the `|| 0` on the stored
variances only replaces a missing value by 0; the fields are always present
on embedded samples). -/
def calculateConsistencyRisk (current : BiometricFeatures) (profile : Profile) : ℝ :=
  let currentHoldVariance := calculateVariance current.holdTimes
  let currentFlightVariance := calculateVariance current.flightTimes
  let avgHoldVariance :=
    calculateAverage (profile.samples.map fun s => s.holdTimeVariance)
  let avgFlightVariance :=
    calculateAverage (profile.samples.map fun s => s.flightTimeVariance)
  let holdConsistencyRisk :=
    if avgHoldVariance > 0 then
      |currentHoldVariance - avgHoldVariance| / avgHoldVariance
    else 0
  let flightConsistencyRisk :=
    if avgFlightVariance > 0 then
      |currentFlightVariance - avgFlightVariance| / avgFlightVariance
    else 0
  min ((holdConsistencyRisk + flightConsistencyRisk) / 2) 1

/-- `RiskCalculator.calculateDeviationRisk`. -/
def calculateDeviationRisk (current : BiometricFeatures) (profile : Profile) : ℝ :=
  let samples := profile.samples
  let holdTimeZScore :=
    calculateZScore (calculateAverage current.holdTimes)
      (samples.map fun s => s.avgHoldTime)
  let flightTimeZScore :=
    calculateZScore (calculateAverage current.flightTimes)
      (samples.map fun s => s.avgFlightTime)
  let typingSpeedZScore :=
    calculateZScore current.typingSpeed (samples.map fun s => s.typingSpeed)
  let holdRisk := min (|holdTimeZScore| / 3) 1
  let flightRisk := min (|flightTimeZScore| / 3) 1
  let speedRisk := min (|typingSpeedZScore| / 3) 1
  (holdRisk + flightRisk + speedRisk) / 3

/-- First differences `a[i] - a[i-1]`, as built by the `for` loops in
`calculateVelocityRisk`. -/
def firstDifferences (l : List ℝ) : List ℝ :=
  List.zipWith (fun next cur => next - cur) l.tail l

/-- `RiskCalculator.calculateVelocityRisk` (the computed
`flightVelocityVariance` is unused in the source and omitted here). -/
def calculateVelocityRisk (current : BiometricFeatures) (profile : Profile) : ℝ :=
  if current.holdTimes.length < 3 ∨ current.flightTimes.length < 3 then 0.3
  else
    let holdVelocities := firstDifferences current.holdTimes
    let holdVelocityVariance := calculateVariance holdVelocities
    let historicalHoldVelocityVariance :=
      calculateAverage
        (profile.samples.map fun s => s.holdVelocityVariance.getD 0)
    let velocityRisk :=
      if historicalHoldVelocityVariance > 0 then
        |holdVelocityVariance - historicalHoldVelocityVariance| /
          historicalHoldVelocityVariance
      else 0.3
    min velocityRisk 1

/-- The `factors` record passed to `calculateWeightedScore`. -/
structure RiskFactors where
  temporal : ℝ
  behavioral : ℝ
  consistency : ℝ
  deviation : ℝ
  velocity : ℝ
  client : ℝ

/-- `RiskCalculator.calculateWeightedScore`.  The source iterates over the
factor entries, skipping non-numeric/NaN values; over `ℝ` all six factors are
numeric, so every weight contributes and the divisor is the full weight sum. -/
def calculateWeightedScore (factors : RiskFactors) : ℝ :=
  let weightedSum :=
    factors.temporal * 0.25 + factors.behavioral * 0.2 +
      factors.consistency * 0.2 + factors.deviation * 0.15 +
      factors.velocity * 0.1 + factors.client * 0.1
  let totalWeight : ℝ := 0.25 + 0.2 + 0.2 + 0.15 + 0.1 + 0.1
  if totalWeight > 0 then weightedSum / totalWeight else 0.5

/-- `RiskCalculator.calculateConfidence` (`now` models `Date.now()`). -/
def calculateConfidence (profile : Profile) (now : ℝ) : ℝ :=
  let sampleCount := (profile.samples.length : ℝ)
  let daysSinceFirstSample := (now - profile.createdAt) / (1000 * 60 * 60 * 24)
  let sampleConfidence := min (sampleCount / 20) 1
  let timeConfidence := min (daysSinceFirstSample / 30) 1
  (sampleConfidence + timeConfidence) / 2

/-- The decision returned by `RiskCalculator.calculateRisk`.  The
human-readable `analysis` string is display-only (never read by any caller
logic) and is not modelled. -/
structure RiskDecision where
  finalScore : ℝ
  factors : RiskFactors
  confidence : ℝ

/-- `RiskCalculator.calculateRisk` (the fusion engine's `evaluate`).  The JS
`clientRiskScore || 0` only replaces a missing/NaN argument by 0 and is the
identity on real-valued scores.  The surrounding `try/catch` is dead over
this total model and is not represented. -/
def calculateRisk (currentFeatures : BiometricFeatures)
    (userProfile : Option Profile) (clientRiskScore : ℝ) (now : ℝ) :
    RiskDecision :=
  let coldFactors : RiskFactors :=
    { temporal := 0.4, behavioral := 0.4, consistency := 0.5, deviation := 0.3,
      velocity := 0.3, client := clientRiskScore }
  match userProfile with
  | none =>
    { finalScore := calculateWeightedScore coldFactors, factors := coldFactors,
      confidence := 0.3 }
  | some profile =>
    if profile.samples.length = 0 then
      { finalScore := calculateWeightedScore coldFactors,
        factors := coldFactors, confidence := 0.3 }
    else
      let factors : RiskFactors :=
        { temporal := calculateTemporalRisk currentFeatures profile
          behavioral := calculateBehavioralRisk currentFeatures profile
          consistency := calculateConsistencyRisk currentFeatures profile
          deviation := calculateDeviationRisk currentFeatures profile
          velocity := calculateVelocityRisk currentFeatures profile
          client := clientRiskScore }
      { finalScore := calculateWeightedScore factors, factors := factors,
        confidence := calculateConfidence profile now }

/-- The summary sample built inside `UserManager.updateBiometricProfile`
(no `holdVelocityVariance` field; averages/variances computed without the
empty-array guard of `calculateAverage`). -/
def summarizeSample (features : BiometricFeatures) (now : ℝ) : BiometricSample :=
  let avgHoldTime := features.holdTimes.sum / (features.holdTimes.length : ℝ)
  let avgFlightTime :=
    features.flightTimes.sum / (features.flightTimes.length : ℝ)
  let holdTimeVariance :=
    ((features.holdTimes.map fun val => (val - avgHoldTime) ^ 2).sum :ℝ) /
      (features.holdTimes.length : ℝ)
  let flightTimeVariance :=
    ((features.flightTimes.map fun val => (val - avgFlightTime) ^ 2).sum : ℝ) /
      (features.flightTimes.length : ℝ)
  { avgHoldTime := avgHoldTime, avgFlightTime := avgFlightTime,
    holdTimeVariance := holdTimeVariance,
    flightTimeVariance := flightTimeVariance, errorRate := features.errorRate,
    typingSpeed := features.typingSpeed, holdVelocityVariance := none,
    timestamp := now }

/-- `UserManager.updateBiometricProfile` on a present profile: push the new
summary sample, evict the oldest entry when the length exceeds 50, refresh
`lastUpdated`. -/
def updateBiometricProfile (profile : Profile) (features : BiometricFeatures)
    (now : ℝ) : Profile :=
  let samples := profile.samples ++ [summarizeSample features now]
  { profile with
    samples := if 50 < samples.length then samples.tail else samples
    lastUpdated := now }

/-- The `action` field of a login/step-up response. -/
inductive Action where
  | GRANT
  | STEP_UP
  | DENY
  deriving Repr, DecidableEq

/-- The decision pipeline of `login` in the auth controller, after
credential validation: risk evaluation against the stored profile, the
unconditional `updateBiometricProfile` call, then the threshold branch
(`< 0.3` grant, `< 0.7` step-up, otherwise deny).  Returns the chosen action
together with the user's stored profile after the attempt. -/
def login (profile : Option Profile) (features : BiometricFeatures)
    (clientRiskScore : ℝ) (now : ℝ) : Action × Option Profile :=
  let riskAnalysis := calculateRisk features profile clientRiskScore now
  let updated :=
    match profile with
    | none => none
    | some p => some (updateBiometricProfile p features now)
  let action :=
    if riskAnalysis.finalScore < 0.3 then Action.GRANT
    else if riskAnalysis.finalScore < 0.7 then Action.STEP_UP
    else Action.DENY
  (action, updated)

/-- Test fixture: one stored biometric sample (mean hold/flight time 100 ms,
variance 1, error rate 0, typing speed 100). -/
def sampleP : BiometricSample :=
  { avgHoldTime := 100, avgFlightTime := 100, holdTimeVariance := 1,
    flightTimeVariance := 1, errorRate := 0, typingSpeed := 100,
    holdVelocityVariance := none, timestamp := 0 }

/-- Test fixture: a one-sample profile. -/
def profP : Profile :=
  { userId := "user-1", createdAt := 0, lastUpdated := 0, samples := [sampleP] }

/-- Test fixture: a session wildly different from `profP` (mean hold/flight
time 300 ms, huge in-session variance, error rate 1, typing speed 300). -/
def featF : BiometricFeatures :=
  { holdTimes := [0, 600], flightTimes := [0, 600], errorRate := 1,
    typingSpeed := 300, timestamp := 0 }

/-- Test fixture: a stored sample with a negative mean hold time (reachable:
the login schema accepts arbitrary real `holdTimes`, and
`updateBiometricProfile` stores their mean unchecked). -/
def sampleNeg : BiometricSample :=
  { avgHoldTime := -100, avgFlightTime := 100, holdTimeVariance := 0,
    flightTimeVariance := 0, errorRate := 0, typingSpeed := 100,
    holdVelocityVariance := none, timestamp := 0 }

/-- Test fixture: a profile whose historical mean hold time is negative. -/
def profNeg : Profile :=
  { userId := "user-2", createdAt := 0, lastUpdated := 0,
    samples := [sampleNeg] }

/-- Test fixture: session matching `profNeg`'s historical means exactly. -/
def featNeg0 : BiometricFeatures :=
  { holdTimes := [-100], flightTimes := [100], errorRate := 0,
    typingSpeed := 100, timestamp := 0 }

/-- Test fixture: session whose mean hold time is 100 away from `profNeg`'s
historical mean. -/
def featNeg1 : BiometricFeatures :=
  { holdTimes := [0], flightTimes := [100], errorRate := 0,
    typingSpeed := 100, timestamp := 0 }

/-- Test fixture: session matching `profP`'s historical mean hold time. -/
def featW0 : BiometricFeatures :=
  { holdTimes := [100], flightTimes := [100], errorRate := 0,
    typingSpeed := 100, timestamp := 0 }

/-- Test fixture: session 50 ms away from `profP`'s historical mean hold
time, flight times unchanged. -/
def featW1 : BiometricFeatures :=
  { holdTimes := [150], flightTimes := [100], errorRate := 0,
    typingSpeed := 100, timestamp := 0 }

end

end ServerRisk

namespace ClientRisk

/-- The `RiskPrediction` interface of the TensorFlow-based client
`RiskCalculator`. -/
structure RiskPrediction where
  riskScore : ℚ
  confidence : ℚ
  recommendation : ServerRisk.Action
  features : List ℚ
  deriving DecidableEq

/-- The private mutable fields of the client `RiskCalculator` consulted by
`calculateRisk`'s guard.  The loaded network itself is abstracted as its
prediction function (`model = some f` models a non-null `tf.LayersModel`);
`normalizeParams` holds the per-feature mean/std tensors. -/
structure LocalModelState where
  model : Option (List ℚ → ℚ)
  isModelReady : Bool
  normalizeParams : Option (List ℚ × List ℚ)

/-- `RiskCalculator.calculateConfidence` (client version).  JS destructuring
of a short feature array yields `undefined`, whose comparisons are all false,
so an absent entry never reduces confidence; `Option` matching reproduces
that. -/
def calculateLocalConfidence (features : List ℚ) : ℚ :=
  let outside (i : ℕ) (lo hi : ℚ) : Bool :=
    match features.get? i with
    | some v => v < lo ∨ v > hi
    | none => false
  let above (i : ℕ) (hi : ℚ) : Bool :=
    match features.get? i with
    | some v => v > hi
    | none => false
  let below (i : ℕ) (lo : ℚ) : Bool :=
    match features.get? i with
    | some v => v < lo
    | none => false
  let c0 : ℚ := 1
  let c1 := if outside 0 20 300 then c0 * (8 / 10) else c0
  let c2 := if outside 1 10 500 then c1 * (8 / 10) else c1
  let c3 := if outside 4 10 200 then c2 * (7 / 10) else c2
  let c4 := if above 5 20 then c3 * (6 / 10) else c3
  let c5 := if below 6 30 then c4 * (7 / 10) else c4
  max (1 / 10) c5

/-- `RiskCalculator.getRecommendation` (client version). -/
def getRecommendation (riskScore confidence : ℚ) : ServerRisk.Action :=
  if confidence < 1 / 2 then ServerRisk.Action.STEP_UP
  else if riskScore < 3 / 10 then ServerRisk.Action.GRANT
  else if riskScore > 7 / 10 then ServerRisk.Action.DENY
  else ServerRisk.Action.STEP_UP

/-- The fixed neutral fallback object returned when the model is not ready
(and by the `catch` handler). -/
def fallbackPrediction (features : List ℚ) : RiskPrediction :=
  { riskScore := 1 / 2, confidence := 1 / 10,
    recommendation := ServerRisk.Action.STEP_UP, features := features }

/-- The client `RiskCalculator.calculateRisk` (the estimator's `score`).
When the guard `!isModelReady || !model || !normalizeParams` holds it
returns the fallback; otherwise it normalizes the features, runs the
network, and assembles the prediction.  Tensor arithmetic cannot throw in
this model, so the `catch` branch is unreachable here. -/
def calculateRisk (st : LocalModelState) (features : List ℚ) : RiskPrediction :=
  if st.isModelReady = false ∨ st.model.isNone ∨ st.normalizeParams.isNone then
    fallbackPrediction features
  else
    match st.model, st.normalizeParams with
    | some predict, some (mean, std) =>
      let normalizedFeatures :=
        List.zipWith (fun v p => v / p) (List.zipWith (· - ·) features mean) std
      let risk := predict normalizedFeatures
      let confidence := calculateLocalConfidence features
      { riskScore := risk, confidence := confidence,
        recommendation := getRecommendation risk confidence,
        features := features }
    | _, _ => fallbackPrediction features

/-- Test fixture: the estimator before `loadOrCreateModel` has completed
(`model = null`, `isModelReady = false`, `normalizeParams = null`). -/
def notReadyState : LocalModelState :=
  { model := none, isModelReady := false, normalizeParams := none }

end ClientRisk

namespace ChallengeManager

theorem mapGet_mapSet_self (m : ChallengeMap) (id : String) (v : ChallengeData) :
    mapGet (mapSet m id v) id = some v := by
  induction m with
  | nil => simp [mapSet, mapGet]
  | cons head rest ih =>
    obtain ⟨k, w⟩ := head
    by_cases h : k = id
    · simp [mapSet, mapGet, h]
    · simp [mapSet, mapGet, h, ih]

theorem mapGet_mapDelete_self (m : ChallengeMap) (id : String) :
    mapGet (mapDelete m id) id = none := by
  induction m with
  | nil => simp [mapDelete, mapGet]
  | cons head rest ih =>
    obtain ⟨k, w⟩ := head
    by_cases h : k = id
    · simp [mapDelete, h, ih]
    · simp [mapDelete, mapGet, h, ih]

/-- One verification call on a live, not-yet-exhausted challenge with a
wrong solution: increments `attempts` in place and reports the remaining
attempts. -/
theorem verify_incorrect_step
    (m : ChallengeMap) (id s : String) (t : ℚ) (c : ChallengeData)
    (hget : mapGet m id = some c)
    (hexp : ¬ t > c.expiresAt) (hC : c.completed = false)
    (hLt : c.attempts < c.maxAttempts)
    (hs : verifySolution c s = false) :
    verifyChallenge m id s t =
      (.invalidRetry "Incorrect solution" (c.maxAttempts - (c.attempts + 1)),
        mapSet m id { c with attempts := c.attempts + 1 }) := by
  have hs' : verifySolution
      { userId := c.userId, type := c.type, answer := c.answer,
        createdAt := c.createdAt, expiresAt := c.expiresAt,
        attempts := c.attempts + 1, maxAttempts := c.maxAttempts,
        completed := false } s = false := hs
  rw [verifyChallenge, hget]
  simp only [if_neg hexp, hC, Bool.false_eq_true, if_false,
    if_neg (not_le.mpr hLt), hs', if_false]

/-- One verification call on a live challenge whose attempts are already
exhausted: the entry is deleted and the call rejected. -/
theorem verify_exhausted_step
    (m : ChallengeMap) (id s : String) (t : ℚ) (c : ChallengeData)
    (hget : mapGet m id = some c)
    (hexp : ¬ t > c.expiresAt) (hC : c.completed = false)
    (hGe : c.attempts ≥ c.maxAttempts) :
    verifyChallenge m id s t =
      (.invalid "Maximum attempts exceeded", mapDelete m id) := by
  rw [verifyChallenge, hget]
  simp only [if_neg hexp, hC, Bool.false_eq_true, if_false, if_pos hGe]

/-- C1 (amended): for a fresh challenge (`attempts = 0`, `maxAttempts = 3`,
not completed) and verification calls made before expiry, three consecutive
incorrect solutions yield Retry(2), Retry(1), Retry(0); the challenge
survives the third call with `attempts = 3`; the fourth call is rejected
with "Maximum attempts exceeded" and only then is the entry deleted; a
fifth call yields "Challenge not found or expired". -/
theorem challenge_exhaustion_sequence
    (m : ChallengeMap) (id s1 s2 s3 s4 s5 : String) (t1 t2 t3 t4 t5 : ℚ)
    (c : ChallengeData) (hget : mapGet m id = some c)
    (hA : c.attempts = 0) (hM : c.maxAttempts = 3) (hC : c.completed = false)
    (h1 : ¬ t1 > c.expiresAt) (h2 : ¬ t2 > c.expiresAt)
    (h3 : ¬ t3 > c.expiresAt) (h4 : ¬ t4 > c.expiresAt)
    (hs1 : verifySolution c s1 = false) (hs2 : verifySolution c s2 = false)
    (hs3 : verifySolution c s3 = false) :
    ((verifyChallenge m id s1 t1).1 = .invalidRetry "Incorrect solution" 2) ∧
    ((verifyChallenge (verifyChallenge m id s1 t1).2 id s2 t2).1 =
      .invalidRetry "Incorrect solution" 1) ∧
    ((verifyChallenge (verifyChallenge (verifyChallenge m id s1 t1).2 id s2
        t2).2 id s3 t3).1 = .invalidRetry "Incorrect solution" 0) ∧
    (mapGet (verifyChallenge (verifyChallenge (verifyChallenge m id s1 t1).2
        id s2 t2).2 id s3 t3).2 id = some { c with attempts := 3 }) ∧
    ((verifyChallenge (verifyChallenge (verifyChallenge (verifyChallenge m id
        s1 t1).2 id s2 t2).2 id s3 t3).2 id s4 t4).1 =
      .invalid "Maximum attempts exceeded") ∧
    (mapGet (verifyChallenge (verifyChallenge (verifyChallenge (verifyChallenge
        m id s1 t1).2 id s2 t2).2 id s3 t3).2 id s4 t4).2 id = none) ∧
    ((verifyChallenge (verifyChallenge (verifyChallenge (verifyChallenge
        (verifyChallenge m id s1 t1).2 id s2 t2).2 id s3 t3).2 id s4 t4).2 id
        s5 t5).1 = .invalid "Challenge not found or expired") := by
  obtain ⟨uid, ty, ans, ca, ex, att, ma, comp⟩ := c
  simp only [ChallengeData.attempts, ChallengeData.maxAttempts,
    ChallengeData.completed, ChallengeData.expiresAt] at hA hM hC h1 h2 h3 h4
  subst hA hM hC
  have e1 := verify_incorrect_step m id s1 t1 _ hget h1 rfl (by norm_num) hs1
  have hget1 : mapGet (verifyChallenge m id s1 t1).2 id = some
      { userId := uid, type := ty, answer := ans, createdAt := ca,
        expiresAt := ex, attempts := 1, maxAttempts := 3,
        completed := false } := by
    rw [e1]; exact mapGet_mapSet_self _ _ _
  have e2 := verify_incorrect_step _ id s2 t2 _ hget1 h2 rfl (by norm_num) hs2
  have hget2 : mapGet (verifyChallenge (verifyChallenge m id s1 t1).2 id s2
      t2).2 id = some
      { userId := uid, type := ty, answer := ans, createdAt := ca,
        expiresAt := ex, attempts := 2, maxAttempts := 3,
        completed := false } := by
    rw [e2]; exact mapGet_mapSet_self _ _ _
  have e3 := verify_incorrect_step _ id s3 t3 _ hget2 h3 rfl (by norm_num) hs3
  have hget3 : mapGet (verifyChallenge (verifyChallenge (verifyChallenge m id
      s1 t1).2 id s2 t2).2 id s3 t3).2 id = some
      { userId := uid, type := ty, answer := ans, createdAt := ca,
        expiresAt := ex, attempts := 3, maxAttempts := 3,
        completed := false } := by
    rw [e3]; exact mapGet_mapSet_self _ _ _
  have e4 := verify_exhausted_step _ id s4 t4 _ hget3 h4 rfl (by norm_num)
  have hget4 : mapGet (verifyChallenge (verifyChallenge (verifyChallenge
      (verifyChallenge m id s1 t1).2 id s2 t2).2 id s3 t3).2 id s4 t4).2 id =
      none := by
    rw [e4]; exact mapGet_mapDelete_self _ _
  have e5 : (verifyChallenge (verifyChallenge (verifyChallenge
      (verifyChallenge (verifyChallenge m id s1 t1).2 id s2 t2).2 id s3
      t3).2 id s4 t4).2 id s5 t5).1 = VerifyResult.invalid
      "Challenge not found or expired" := by
    rw [verifyChallenge, hget4]
  exact ⟨by rw [e1] <;> rfl, by rw [e2] <;> rfl, by rw [e3] <;> rfl,
    by rw [hget3] <;> rfl, by rw [e4] <;> rfl, hget4, e5⟩

/-- C1 (witness): the amended sequence evaluated on the concrete fixture. -/
theorem challenge_exhaustion_sequence_witness :
    (mapGet exhaustMap "cid" = some exhaustChallenge ∧
      exhaustChallenge.attempts = 0 ∧ exhaustChallenge.maxAttempts = 3 ∧
      exhaustChallenge.completed = false ∧
      ¬ (10 : ℚ) > exhaustChallenge.expiresAt ∧
      verifySolution exhaustChallenge "nope" = false) ∧
    ((verifyChallenge exhaustMap "cid" "nope" 10).1 =
      .invalidRetry "Incorrect solution" 2) ∧
    ((verifyChallenge (verifyChallenge exhaustMap "cid" "nope" 10).2 "cid"
      "nope" 20).1 = .invalidRetry "Incorrect solution" 1) ∧
    ((verifyChallenge (verifyChallenge (verifyChallenge exhaustMap "cid"
      "nope" 10).2 "cid" "nope" 20).2 "cid" "nope" 30).1 =
      .invalidRetry "Incorrect solution" 0) ∧
    (mapGet (verifyChallenge (verifyChallenge (verifyChallenge exhaustMap
      "cid" "nope" 10).2 "cid" "nope" 20).2 "cid" "nope" 30).2 "cid" =
      some { exhaustChallenge with attempts := 3 }) ∧
    ((verifyChallenge (verifyChallenge (verifyChallenge (verifyChallenge
      exhaustMap "cid" "nope" 10).2 "cid" "nope" 20).2 "cid" "nope" 30).2
      "cid" "nope" 40).1 = .invalid "Maximum attempts exceeded") ∧
    (mapGet (verifyChallenge (verifyChallenge (verifyChallenge
      (verifyChallenge exhaustMap "cid" "nope" 10).2 "cid" "nope" 20).2 "cid"
      "nope" 30).2 "cid" "nope" 40).2 "cid" = none) ∧
    ((verifyChallenge (verifyChallenge (verifyChallenge (verifyChallenge
      (verifyChallenge exhaustMap "cid" "nope" 10).2 "cid" "nope" 20).2 "cid"
      "nope" 30).2 "cid" "nope" 40).2 "cid" "nope" 50).1 =
      .invalid "Challenge not found or expired") := by
  refine ⟨⟨by decide, by decide, by decide, by decide, by decide, by decide⟩,
    ?_⟩
  have h := challenge_exhaustion_sequence exhaustMap "cid" "nope" "nope"
    "nope" "nope" "nope" 10 20 30 40 50 exhaustChallenge (by decide)
    (by decide) (by decide) (by decide) (by decide) (by decide) (by decide)
    (by decide) (by decide) (by decide) (by decide)
  exact h

/-- C1 (counterexample to the claim as stated): on the concrete fixture the
third consecutive incorrect call returns Retry with 0 attempts remaining --
not Rejected("exhausted") -- and the challenge entry is still present with
`attempts = 3`; the fourth call is then rejected with "Maximum attempts
exceeded" rather than "not found". -/
theorem challenge_third_failure_keeps_entry :
    ((verifyChallenge (verifyChallenge (verifyChallenge exhaustMap "cid" "a"
      10).2 "cid" "a" 20).2 "cid" "a" 30).1 =
      .invalidRetry "Incorrect solution" 0) ∧
    ((mapGet (verifyChallenge (verifyChallenge (verifyChallenge exhaustMap
      "cid" "a" 10).2 "cid" "a" 20).2 "cid" "a" 30).2 "cid").map
      (fun c => c.attempts) = some 3) ∧
    ((verifyChallenge (verifyChallenge (verifyChallenge (verifyChallenge
      exhaustMap "cid" "a" 10).2 "cid" "a" 20).2 "cid" "a" 30).2 "cid" "a"
      40).1 = .invalid "Maximum attempts exceeded") := by
  refine ⟨by decide, by decide, by decide⟩

/-- C7: a verification call strictly after `expiresAt` deletes the challenge
and returns Rejected("Challenge expired"), for every submitted solution --
in particular it is never Accepted. -/
theorem challenge_expired_rejected
    (m : ChallengeMap) (id s : String) (t : ℚ) (c : ChallengeData)
    (hget : mapGet m id = some c) (hexp : t > c.expiresAt) :
    verifyChallenge m id s t = (.invalid "Challenge expired", mapDelete m id) ∧
    mapGet (verifyChallenge m id s t).2 id = none ∧
    ∀ u ty a, (verifyChallenge m id s t).1 ≠ .valid u ty a := by
  have h : verifyChallenge m id s t =
      (.invalid "Challenge expired", mapDelete m id) := by
    rw [verifyChallenge, hget]
    simp only [hexp, if_true]
  refine ⟨h, ?_, ?_⟩
  · rw [h]; exact mapGet_mapDelete_self m id
  · intro u ty a
    rw [h]
    simp

/-- C7 (witness): submitting the correct captcha solution one millisecond
after expiry is still rejected as expired and the entry is deleted. -/
theorem challenge_expired_rejected_witness :
    (mapGet exhaustMap "cid" = some exhaustChallenge ∧
      (300001 : ℚ) > exhaustChallenge.expiresAt ∧
      verifySolution exhaustChallenge "x7kq2" = true) ∧
    (verifyChallenge exhaustMap "cid" "x7kq2" 300001 =
      (.invalid "Challenge expired", mapDelete exhaustMap "cid") ∧
    mapGet (verifyChallenge exhaustMap "cid" "x7kq2" 300001).2 "cid" = none ∧
    ∀ u ty a,
      (verifyChallenge exhaustMap "cid" "x7kq2" 300001).1 ≠ .valid u ty a) :=
  ⟨⟨by decide, by decide, by decide⟩,
    challenge_expired_rejected exhaustMap "cid" "x7kq2" 300001
      exhaustChallenge (by decide) (by decide)⟩

end ChallengeManager

namespace Capture

/-- C4: the flight-time guard can never fire under press/release typing,
because every `captureKeyDown` rebuilds the key's record with
`lastKeyUp = 0`.  Typing "a" then "b" (press a at 0, release at 100, press b
at 150, release at 250) should, per the claim, record the flight time
150 − 100 = 50 for the second keystroke; the code records no flight time at
all (while hold times and keystroke counts are tracked as expected). -/
theorem flight_times_never_recorded :
    ((runEvents (initState 0)
      [.down "a" 0, .up "a" 100, .down "b" 150,
        .up "b" 250]).sessionData.flightTimes = []) ∧
    ((runEvents (initState 0)
      [.down "a" 0, .up "a" 100, .down "b" 150,
        .up "b" 250]).sessionData.holdTimes = [100, 100]) ∧
    ((runEvents (initState 0)
      [.down "a" 0, .up "a" 100, .down "b" 150,
        .up "b" 250]).sessionData.totalKeystrokes = 2) ∧
    ((metricsGet (runEvents (initState 0)
      [.down "a" 0, .up "a" 100, .down "b" 150,
        .up "b" 250]).metrics "b").map (fun mtr => mtr.lastKeyUp) =
      some 250) := by
  have h : (runEvents (initState 0)
      [.down "a" 0, .up "a" 100, .down "b" 150,
        .up "b" 250]).sessionData.holdTimes
      = [(100 : ℚ) - 0, (250 : ℚ) - 150] := rfl
  refine ⟨by decide, ?_, by decide, by decide⟩
  rw [h]
  norm_num

/-- C10: a Backspace keydown increments `corrections` and leaves
`totalKeystrokes` unchanged; `calculateErrorRate` reports
`corrections / totalKeystrokes × 100` (0 when no keystrokes are counted);
consequently typing one character and pressing Backspace twice reports an
error rate of 200 %. -/
theorem backspace_error_rate_exceeds_100 :
    (∀ (st : CaptureState) (t : ℚ),
      (captureKeyDown st "Backspace" t).sessionData.corrections =
        st.sessionData.corrections + 1 ∧
      (captureKeyDown st "Backspace" t).sessionData.totalKeystrokes =
        st.sessionData.totalKeystrokes) ∧
    (∀ (st : CaptureState) (t : ℚ),
      (updateSession st t).sessionData.errorRate =
        if st.sessionData.totalKeystrokes = 0 then 0
        else ((st.sessionData.corrections : ℚ) /
          (st.sessionData.totalKeystrokes : ℚ)) * 100) ∧
    ((runEvents (initState 0)
      [.down "a" 0, .up "a" 50, .down "Backspace" 60,
        .down "Backspace" 70]).sessionData.errorRate = 200) := by
  refine ⟨fun st t => ⟨rfl, rfl⟩, fun st t => rfl, ?_⟩
  have h : (runEvents (initState 0)
      [.down "a" 0, .up "a" 50, .down "Backspace" 60,
        .down "Backspace" 70]).sessionData.errorRate
      = ((2 : ℕ) : ℚ) / ((1 : ℕ) : ℚ) * 100 := rfl
  rw [h]
  norm_num

end Capture

namespace ServerRisk

theorem calculateAverage_nonneg (l : List ℝ) (h : ∀ x ∈ l, 0 ≤ x) :
    0 ≤ calculateAverage l := by
  unfold calculateAverage
  split
  · exact div_nonneg (List.sum_nonneg h) (by positivity)
  · exact le_refl 0

theorem half_sum_min_bounds (x y : ℝ) (hx : 0 ≤ x) (hy : 0 ≤ y) :
    0 ≤ (min x 1 + min y 1) / 2 ∧ (min x 1 + min y 1) / 2 ≤ 1 := by
  have h1 : 0 ≤ min x 1 := le_min hx zero_le_one
  have h2 : 0 ≤ min y 1 := le_min hy zero_le_one
  have h3 : min x 1 ≤ 1 := min_le_right _ _
  have h4 : min y 1 ≤ 1 := min_le_right _ _
  constructor <;> linarith

theorem temporalRisk_bounds (current : BiometricFeatures) (profile : Profile)
    (hH : 0 ≤ calculateAverage (profile.samples.map fun s => s.avgHoldTime))
    (hF : 0 ≤ calculateAverage (profile.samples.map fun s => s.avgFlightTime)) :
    0 ≤ calculateTemporalRisk current profile ∧
      calculateTemporalRisk current profile ≤ 1 := by
  simp only [calculateTemporalRisk]
  exact half_sum_min_bounds _ _
    (mul_nonneg (div_nonneg (abs_nonneg _) hH) (by norm_num))
    (mul_nonneg (div_nonneg (abs_nonneg _) hF) (by norm_num))

theorem behavioralRisk_bounds (current : BiometricFeatures) (profile : Profile)
    (hS : 0 ≤ calculateAverage (profile.samples.map fun s => s.typingSpeed)) :
    0 ≤ calculateBehavioralRisk current profile ∧
      calculateBehavioralRisk current profile ≤ 1 := by
  simp only [calculateBehavioralRisk]
  exact half_sum_min_bounds _ _
    (mul_nonneg (abs_nonneg _) (by norm_num))
    (mul_nonneg (div_nonneg (abs_nonneg _) hS) (by norm_num))

theorem consistencyRisk_bounds (current : BiometricFeatures) (profile : Profile) :
    0 ≤ calculateConsistencyRisk current profile ∧
      calculateConsistencyRisk current profile ≤ 1 := by
  simp only [calculateConsistencyRisk]
  have hh : (0:ℝ) ≤
      (if calculateAverage (profile.samples.map fun s => s.holdTimeVariance) > 0
        then |calculateVariance current.holdTimes -
            calculateAverage (profile.samples.map fun s => s.holdTimeVariance)| /
          calculateAverage (profile.samples.map fun s => s.holdTimeVariance)
        else 0) := by
    split
    · exact div_nonneg (abs_nonneg _) (le_of_lt (by assumption))
    · exact le_refl 0
  have hf : (0:ℝ) ≤
      (if calculateAverage (profile.samples.map fun s => s.flightTimeVariance) > 0
        then |calculateVariance current.flightTimes -
            calculateAverage (profile.samples.map fun s => s.flightTimeVariance)| /
          calculateAverage (profile.samples.map fun s => s.flightTimeVariance)
        else 0) := by
    split
    · exact div_nonneg (abs_nonneg _) (le_of_lt (by assumption))
    · exact le_refl 0
  constructor
  · exact le_min (by linarith) zero_le_one
  · exact min_le_right _ _

theorem deviationRisk_bounds (current : BiometricFeatures) (profile : Profile) :
    0 ≤ calculateDeviationRisk current profile ∧
      calculateDeviationRisk current profile ≤ 1 := by
  simp only [calculateDeviationRisk]
  have b : ∀ z : ℝ, 0 ≤ min (|z| / 3) 1 ∧ min (|z| / 3) 1 ≤ 1 := fun z =>
    ⟨le_min (by positivity) zero_le_one, min_le_right _ _⟩
  obtain ⟨a1, a2⟩ := b (calculateZScore (calculateAverage current.holdTimes)
    (profile.samples.map fun s => s.avgHoldTime))
  obtain ⟨b1, b2⟩ := b (calculateZScore (calculateAverage current.flightTimes)
    (profile.samples.map fun s => s.avgFlightTime))
  obtain ⟨c1, c2⟩ := b (calculateZScore current.typingSpeed
    (profile.samples.map fun s => s.typingSpeed))
  constructor <;> linarith

theorem velocityRisk_bounds (current : BiometricFeatures) (profile : Profile) :
    0 ≤ calculateVelocityRisk current profile ∧
      calculateVelocityRisk current profile ≤ 1 := by
  simp only [calculateVelocityRisk]
  split
  · norm_num
  · have hv : (0:ℝ) ≤ (if calculateAverage (profile.samples.map fun s =>
        s.holdVelocityVariance.getD 0) > 0
        then |calculateVariance (firstDifferences current.holdTimes) -
            calculateAverage (profile.samples.map fun s =>
              s.holdVelocityVariance.getD 0)| /
          calculateAverage (profile.samples.map fun s =>
            s.holdVelocityVariance.getD 0)
        else 0.3) := by
      split
      · exact div_nonneg (abs_nonneg _) (le_of_lt (by assumption))
      · norm_num
    exact ⟨le_min hv zero_le_one, min_le_right _ _⟩

theorem weightedScore_bounds (factors : RiskFactors)
    (ht : 0 ≤ factors.temporal ∧ factors.temporal ≤ 1)
    (hb : 0 ≤ factors.behavioral ∧ factors.behavioral ≤ 1)
    (hc : 0 ≤ factors.consistency ∧ factors.consistency ≤ 1)
    (hd : 0 ≤ factors.deviation ∧ factors.deviation ≤ 1)
    (hv : 0 ≤ factors.velocity ∧ factors.velocity ≤ 1)
    (hcl : 0 ≤ factors.client ∧ factors.client ≤ 1) :
    0 ≤ calculateWeightedScore factors ∧ calculateWeightedScore factors ≤ 1 := by
  simp only [calculateWeightedScore]
  rw [if_pos (by norm_num)]
  obtain ⟨t0, t1⟩ := ht
  obtain ⟨b0, b1⟩ := hb
  obtain ⟨c0, c1⟩ := hc
  obtain ⟨d0, d1⟩ := hd
  obtain ⟨v0, v1⟩ := hv
  obtain ⟨l0, l1⟩ := hcl
  constructor
  · apply div_nonneg _ (by norm_num)
    nlinarith
  · rw [div_le_one (by norm_num)]
    nlinarith

theorem confidence_bounds (profile : Profile) (now : ℝ)
    (hc : profile.createdAt ≤ now) :
    0 ≤ calculateConfidence profile now ∧ calculateConfidence profile now ≤ 1 := by
  simp only [calculateConfidence]
  have h1 : 0 ≤ min ((profile.samples.length : ℝ) / 20) 1 :=
    le_min (by positivity) zero_le_one
  have h2 : 0 ≤ min ((now - profile.createdAt) / (1000 * 60 * 60 * 24) / 30) 1 := by
    refine le_min ?_ zero_le_one
    have : 0 ≤ now - profile.createdAt := by linarith
    positivity
  have h3 : min ((profile.samples.length : ℝ) / 20) 1 ≤ 1 := min_le_right _ _
  have h4 : min ((now - profile.createdAt) / (1000 * 60 * 60 * 24) / 30) 1 ≤ 1 :=
    min_le_right _ _
  constructor <;> linarith

end ServerRisk

namespace ServerRisk

/-- Evaluation of the fusion engine on the `featF`/`profP` fixture: the
factors come out as temporal 1, behavioral 1, consistency 1, deviation 0,
velocity 0.3, so the weighted score is `0.68 + 0.1 * clientRiskScore`. -/
theorem risk_featF_profP (c now : ℝ) :
    (calculateRisk featF (some profP) c now).finalScore = 0.68 + 0.1 * c := by
  simp only [calculateRisk, profP, featF, sampleP]
  norm_num [calculateTemporalRisk, calculateBehavioralRisk,
    calculateConsistencyRisk, calculateDeviationRisk, calculateVelocityRisk,
    calculateWeightedScore, calculateAverage, calculateVariance,
    calculateZScore, firstDifferences, List.map, List.sum, List.length,
    min_def, abs_of_nonneg, abs_of_nonpos]
  ring

/-- C6 (amended): for clientRiskScore in [0,1], profiles whose samples have
nonnegative mean hold/flight times and typing speeds and whose `createdAt`
is not in the future, `calculateRisk` returns `finalScore` and `confidence`
in [0,1]. -/
theorem final_score_confidence_bounded (features : BiometricFeatures)
    (userProfile : Option Profile) (clientRiskScore now : ℝ)
    (hc0 : 0 ≤ clientRiskScore) (hc1 : clientRiskScore ≤ 1)
    (hprof : ∀ p, userProfile = some p → p.createdAt ≤ now ∧
      ∀ s ∈ p.samples, 0 ≤ s.avgHoldTime ∧ 0 ≤ s.avgFlightTime ∧
        0 ≤ s.typingSpeed) :
    (0 ≤ (calculateRisk features userProfile clientRiskScore now).finalScore ∧
      (calculateRisk features userProfile clientRiskScore now).finalScore ≤ 1) ∧
    (0 ≤ (calculateRisk features userProfile clientRiskScore now).confidence ∧
      (calculateRisk features userProfile clientRiskScore now).confidence ≤ 1) := by
  have coldBounds : 0 ≤ calculateWeightedScore
      { temporal := 0.4, behavioral := 0.4, consistency := 0.5,
        deviation := 0.3, velocity := 0.3, client := clientRiskScore } ∧
      calculateWeightedScore
      { temporal := 0.4, behavioral := 0.4, consistency := 0.5,
        deviation := 0.3, velocity := 0.3, client := clientRiskScore } ≤ 1 :=
    weightedScore_bounds _ (by norm_num) (by norm_num) (by norm_num)
      (by norm_num) (by norm_num) ⟨hc0, hc1⟩
  rcases userProfile with _ | p
  · simp only [calculateRisk]
    exact ⟨coldBounds, by norm_num⟩
  · obtain ⟨hcreated, hsamples⟩ := hprof p rfl
    by_cases hlen : p.samples.length = 0
    · simp only [calculateRisk, hlen, if_pos]
      exact ⟨coldBounds, by norm_num⟩
    · simp only [calculateRisk, hlen, if_neg, if_false]
      have hH : 0 ≤ calculateAverage (p.samples.map fun s => s.avgHoldTime) := by
        apply calculateAverage_nonneg
        intro x hx
        obtain ⟨s, hs, rfl⟩ := List.mem_map.mp hx
        exact (hsamples s hs).1
      have hF : 0 ≤ calculateAverage (p.samples.map fun s => s.avgFlightTime) := by
        apply calculateAverage_nonneg
        intro x hx
        obtain ⟨s, hs, rfl⟩ := List.mem_map.mp hx
        exact (hsamples s hs).2.1
      have hS : 0 ≤ calculateAverage (p.samples.map fun s => s.typingSpeed) := by
        apply calculateAverage_nonneg
        intro x hx
        obtain ⟨s, hs, rfl⟩ := List.mem_map.mp hx
        exact (hsamples s hs).2.2
      refine ⟨weightedScore_bounds _ (temporalRisk_bounds features p hH hF)
        (behavioralRisk_bounds features p hS)
        (consistencyRisk_bounds features p) (deviationRisk_bounds features p)
        (velocityRisk_bounds features p) ⟨hc0, hc1⟩,
        confidence_bounds p now hcreated⟩

end ServerRisk

namespace ServerRisk

/-- C6 (counterexample to the claim as stated): the engine does not clamp
`clientRiskScore`, so on a cold-start profile with `clientRiskScore = 10`
the returned `finalScore` is 1.355 > 1. -/
theorem final_score_above_one_for_large_client :
    1 < (calculateRisk featF none 10 0).finalScore := by
  simp only [calculateRisk, calculateWeightedScore]
  norm_num

/-- C6 (witness): the amended bound evaluated at a cold-start profile with
`clientRiskScore = 1/2`. -/
theorem final_score_bounded_witness :
    (0 ≤ (1/2 : ℝ) ∧ (1/2 : ℝ) ≤ 1 ∧
      (∀ p, (none : Option Profile) = some p → p.createdAt ≤ 0 ∧
        ∀ s ∈ p.samples, 0 ≤ s.avgHoldTime ∧ 0 ≤ s.avgFlightTime ∧
          0 ≤ s.typingSpeed)) ∧
    ((0 ≤ (calculateRisk featF none (1/2) 0).finalScore ∧
      (calculateRisk featF none (1/2) 0).finalScore ≤ 1) ∧
    (0 ≤ (calculateRisk featF none (1/2) 0).confidence ∧
      (calculateRisk featF none (1/2) 0).confidence ≤ 1)) :=
  ⟨⟨by norm_num, by norm_num, by intro p hp; cases hp⟩,
    final_score_confidence_bounded featF none (1/2) 0 (by norm_num)
      (by norm_num) (by intro p hp; cases hp)⟩

/-- C5: when the profile is absent or has no samples, `calculateRisk`
returns exactly the fixed moderate factors, with `client` equal to the
caller's `clientRiskScore`, and confidence exactly 0.3. -/
theorem cold_start_fixed_factors (features : BiometricFeatures)
    (userProfile : Option Profile) (clientRiskScore now : ℝ)
    (h : userProfile = none ∨ ∃ p, userProfile = some p ∧ p.samples = []) :
    (calculateRisk features userProfile clientRiskScore now).factors =
      { temporal := 0.4, behavioral := 0.4, consistency := 0.5,
        deviation := 0.3, velocity := 0.3, client := clientRiskScore } ∧
    (calculateRisk features userProfile clientRiskScore now).confidence = 0.3 := by
  rcases h with rfl | ⟨p, rfl, hp⟩
  · exact ⟨rfl, rfl⟩
  · simp only [calculateRisk, hp]
    norm_num

/-- C5 (witness): the cold-start contract evaluated at `profile = none`,
`clientRiskScore = 1/2`. -/
theorem cold_start_fixed_factors_witness :
    ((none : Option Profile) = none ∨
      ∃ p, (none : Option Profile) = some p ∧ p.samples = []) ∧
    ((calculateRisk featF none (1/2) 0).factors =
      { temporal := 0.4, behavioral := 0.4, consistency := 0.5,
        deviation := 0.3, velocity := 0.3, client := (1/2 : ℝ) } ∧
    (calculateRisk featF none (1/2) 0).confidence = 0.3) :=
  ⟨Or.inl rfl, cold_start_fixed_factors featF none (1/2) 0 (Or.inl rfl)⟩

end ServerRisk

namespace ServerRisk

/-- C3 (amended): the orchestrator grants iff `finalScore < 0.3`, creates a
step-up challenge iff `0.3 ≤ finalScore < 0.7` (strictly below 0.7), and
denies iff `finalScore ≥ 0.7` -- at exactly 0.7 the attempt is denied, not
stepped up. -/
theorem login_threshold_branches (profile : Option Profile)
    (features : BiometricFeatures) (clientRiskScore now : ℝ) :
    ((login profile features clientRiskScore now).1 = Action.GRANT ↔
      (calculateRisk features profile clientRiskScore now).finalScore < 0.3) ∧
    ((login profile features clientRiskScore now).1 = Action.STEP_UP ↔
      0.3 ≤ (calculateRisk features profile clientRiskScore now).finalScore ∧
      (calculateRisk features profile clientRiskScore now).finalScore < 0.7) ∧
    ((login profile features clientRiskScore now).1 = Action.DENY ↔
      0.7 ≤ (calculateRisk features profile clientRiskScore now).finalScore) := by
  simp only [login]
  set fs := (calculateRisk features profile clientRiskScore now).finalScore
    with hfs
  by_cases h1 : fs < 0.3
  · have h2 : ¬ (0.3:ℝ) ≤ fs := not_le.mpr h1
    have h3 : ¬ (0.7:ℝ) ≤ fs := by rw [not_le] at *; linarith
    simp [h1, h2, h3]
  · by_cases h2 : fs < 0.7
    · have h3 : (0.3:ℝ) ≤ fs := not_lt.mp h1
      have h4 : ¬ (0.7:ℝ) ≤ fs := not_le.mpr h2
      simp [h1, h2, h3, h4]
    · have h3 : (0.7:ℝ) ≤ fs := not_lt.mp h2
      simp [h1, h2, h3]

/-- C3 (counterexample to the claim as stated): on the `featF`/`profP`
fixture with `clientRiskScore = 1/5` the risk evaluation produces
`finalScore = 0.7` exactly, and the login decision is DENY, not the step-up
the claim requires at 0.7. -/
theorem login_boundary_denies :
    (calculateRisk featF (some profP) (1/5) 0).finalScore = 0.7 ∧
    (login (some profP) featF (1/5) 0).1 = Action.DENY := by
  have h := risk_featF_profP (1/5) 0
  constructor
  · rw [h]; norm_num
  · simp only [login, h]
    norm_num

end ServerRisk

namespace ServerRisk

/-- C2 (amended): `login` appends the session summary to the stored
profile on every attempt that reaches risk evaluation -- the update happens
before the decision branch, so it is independent of the decision, including
denials.  The new sample is the summary of the submitted features, and the
profile length grows by one below the 50-sample cap (oldest evicted at the
cap). -/
theorem login_always_updates_profile (p : Profile)
    (features : BiometricFeatures) (clientRiskScore now : ℝ) :
    ((login (some p) features clientRiskScore now).2 =
      some (updateBiometricProfile p features now)) ∧
    ((updateBiometricProfile p features now).samples.getLast? =
      some (summarizeSample features now)) ∧
    ((updateBiometricProfile p features now).samples.length =
      if 50 ≤ p.samples.length then p.samples.length
      else p.samples.length + 1) := by
  refine ⟨rfl, ?_, ?_⟩
  · simp only [updateBiometricProfile]
    split
    · rename_i h
      cases hsp : p.samples with
      | nil =>
        rw [hsp] at h
        simp at h
      | cons a l =>
        simp [List.getLast?_concat]
    · exact List.getLast?_concat _
  · simp only [updateBiometricProfile]
    split <;> rename_i h <;>
      simp only [List.length_append, List.length_singleton,
        List.length_tail] at h ⊢
    · rw [if_pos (by omega)]
      omega
    · rw [if_neg (by omega)]

/-- C2 (counterexample to the claim as stated): on the `featF`/`profP`
fixture with `clientRiskScore = 1`, `finalScore = 0.78 > 0.7`, the decision
is DENY, yet the stored profile still gains the session's sample (length 1
becomes 2). -/
theorem login_updates_profile_on_deny :
    ((login (some profP) featF 1 0).1 = Action.DENY) ∧
    ((login (some profP) featF 1 0).2 =
      some (updateBiometricProfile profP featF 0)) ∧
    ((updateBiometricProfile profP featF 0).samples.length = 2) ∧
    (profP.samples.length = 1) := by
  have h := risk_featF_profP 1 0
  refine ⟨?_, rfl, ?_, rfl⟩
  · simp only [login, h]
    norm_num
  · simp [updateBiometricProfile, profP]

end ServerRisk

namespace ServerRisk

/-- C8 (amended): provided the profile's historical mean hold time is
positive (as for genuine keystroke timings), the temporal factor is
monotonically nondecreasing in the absolute difference between the current
session's mean hold time and that historical mean, all other inputs held
fixed. -/
theorem temporal_risk_monotone (profile : Profile) (f1 f2 : BiometricFeatures)
    (hH : 0 < calculateAverage (profile.samples.map fun s => s.avgHoldTime))
    (hfl : f1.flightTimes = f2.flightTimes)
    (hmono : |calculateAverage f1.holdTimes -
        calculateAverage (profile.samples.map fun s => s.avgHoldTime)| ≤
      |calculateAverage f2.holdTimes -
        calculateAverage (profile.samples.map fun s => s.avgHoldTime)|) :
    calculateTemporalRisk f1 profile ≤ calculateTemporalRisk f2 profile := by
  simp only [calculateTemporalRisk, hfl]
  gcongr

/-- C8 (witness): monotonicity evaluated on `profP` (historical mean 100)
with current means 100 and 150. -/
theorem temporal_risk_monotone_witness :
    (0 < calculateAverage (profP.samples.map fun s => s.avgHoldTime) ∧
      featW0.flightTimes = featW1.flightTimes ∧
      |calculateAverage featW0.holdTimes -
        calculateAverage (profP.samples.map fun s => s.avgHoldTime)| ≤
      |calculateAverage featW1.holdTimes -
        calculateAverage (profP.samples.map fun s => s.avgHoldTime)|) ∧
    calculateTemporalRisk featW0 profP ≤ calculateTemporalRisk featW1 profP :=
  ⟨⟨by norm_num [calculateAverage, profP, sampleP], rfl,
      by norm_num [calculateAverage, profP, sampleP, featW0, featW1]⟩,
    temporal_risk_monotone profP featW0 featW1
      (by norm_num [calculateAverage, profP, sampleP]) rfl
      (by norm_num [calculateAverage, profP, sampleP, featW0, featW1])⟩

/-- C8 (counterexample to the claim as stated): with a (reachable)
negative historical mean hold time the relative deviation is divided by a
negative number, so moving the current mean 100 ms away from the historical
mean strictly lowers the temporal factor (0 drops to -1). -/
theorem temporal_risk_not_monotone_for_negative_mean :
    (featNeg0.flightTimes = featNeg1.flightTimes) ∧
    (|calculateAverage featNeg0.holdTimes -
        calculateAverage (profNeg.samples.map fun s => s.avgHoldTime)| ≤
      |calculateAverage featNeg1.holdTimes -
        calculateAverage (profNeg.samples.map fun s => s.avgHoldTime)|) ∧
    calculateTemporalRisk featNeg1 profNeg <
      calculateTemporalRisk featNeg0 profNeg := by
  refine ⟨rfl, ?_, ?_⟩
  · norm_num [calculateAverage, profNeg, sampleNeg, featNeg0, featNeg1]
  · norm_num [calculateTemporalRisk, calculateAverage, profNeg, sampleNeg,
      featNeg0, featNeg1, min_def, abs_of_nonneg, abs_of_nonpos]

end ServerRisk

namespace ClientRisk

/-- C9: whenever the client model guard fails (`isModelReady` false, or a
null model, or missing normalization tensors), `calculateRisk` returns
exactly the neutral fallback riskScore 0.5, confidence 0.1, STEP_UP, echoing
the input features; the guard is the first statement of the method, so the
fallback is never skipped. -/
theorem local_fallback_when_not_ready (st : LocalModelState)
    (features : List ℚ)
    (h : st.isModelReady = false ∨ st.model.isNone ∨
      st.normalizeParams.isNone) :
    calculateRisk st features =
      { riskScore := 1/2, confidence := 1/10,
        recommendation := ServerRisk.Action.STEP_UP,
        features := features } := by
  unfold calculateRisk
  rw [if_pos h]
  rfl

/-- C9 (witness): the fallback evaluated on the initial not-ready state
and a typical feature vector. -/
theorem local_fallback_when_not_ready_witness :
    (notReadyState.isModelReady = false ∨ notReadyState.model.isNone ∨
      notReadyState.normalizeParams.isNone) ∧
    calculateRisk notReadyState [95, 105, 12, 18, 45, 2, 80, 60] =
      { riskScore := 1/2, confidence := 1/10,
        recommendation := ServerRisk.Action.STEP_UP,
        features := [95, 105, 12, 18, 45, 2, 80, 60] } :=
  ⟨Or.inl rfl,
    local_fallback_when_not_ready notReadyState
      [95, 105, 12, 18, 45, 2, 80, 60] (Or.inl rfl)⟩

end ClientRisk
